import Mathlib

/-!
Shallow embedding of the FaceSwapper billing/orchestration layer:
`credit_service.py` and the `/swap` handler `swap_faces` in `run.py`.

External effects (file system, the two ledger HTTP calls, the
transformation engine) are modelled by an oracle `World` that fixes the
outcome of every external interaction; the handler becomes a pure
function of that oracle, producing the HTTP-level result, the final
file-system state of the three job-scoped paths, and an ordered event
trace.
-/

namespace FaceSwapper

/-- Parsed shape of the ledger balance response body, exactly as far as
run.py line 109 (`balance_resp.get("data", \x7b\x7d).get("balance", 0)`)
inspects it: the top-level "data" key may be missing, the nested
"balance" key may be missing, or an integer balance is present. -/
inductive LedgerJson
  | noData
  | dataNoBalance
  | dataBalance (b : ℤ)
deriving DecidableEq, Repr

/-- Outcome of one HTTP round trip to the credit service, as observable
through the `requests` calls in credit_service.py: the request itself
fails (network error / timeout), `raise_for_status` fails (non-2xx),
`response.json()` fails (body is not JSON), or a parsed JSON body comes
back. -/
inductive HttpOutcome
  | netFail
  | badStatus
  | notJson
  | ok (j : LedgerJson)
deriving DecidableEq, Repr

/-- Exceptions `get_user_balance` / `deduct_credits` can raise:
the RuntimeError for a missing INTERNAL_SERVICE_KEY, or the
requests-level errors. -/
inductive CreditErr
  | keyMissing
  | netFail
  | badStatus
  | notJson
deriving DecidableEq, Repr

/-- Observable events of one `/swap` request, in program order:
the two ledger HTTP calls, lock acquisition/release, the engine
invocation, the output-existence check, the debit attempt, the
CRITICAL log line for a failed debit, and returning the artifact. -/
inductive Ev
  | ledgerGet
  | ledgerPost
  | acquire
  | engine
  | release
  | checkOut
  | debit
  | logDebitFail
  | respond
deriving DecidableEq, Repr

/-- Model of credit_service.get_user_balance: if INTERNAL_SERVICE_KEY is
empty (os.getenv defaults an absent variable to "") it raises
RuntimeError before any network call; otherwise it performs the GET and
returns `response.json()`, with `raise_for_status` / JSON-decoding
failures raised as exceptions.  The returned event list records the
network calls actually made. -/
def get_user_balance (key : String) (outcome : HttpOutcome) :
    Except CreditErr LedgerJson × List Ev :=
  if key = "" then (.error .keyMissing, [])
  else
    match outcome with
    | .netFail => (.error .netFail, [.ledgerGet])
    | .badStatus => (.error .badStatus, [.ledgerGet])
    | .notJson => (.error .notJson, [.ledgerGet])
    | .ok j => (.ok j, [.ledgerGet])

/-- Body sent by credit_service.deduct_credits. -/
structure DebitPayload where
  type : String
  userId : String
  amount : ℤ
  resourceType : String
  resourceId : String
deriving DecidableEq, Repr

/-- Payload built at credit_service.py lines 55-61; the amount sent is
`-abs(amount)`. -/
def debit_payload (user_id : String) (amount : ℤ) (rt rid : String) : DebitPayload :=
  { type := "USAGE", userId := user_id, amount := -(amount.natAbs : ℤ),
    resourceType := rt, resourceId := rid }

/-- Model of credit_service.deduct_credits: RuntimeError before any
network call when the key is empty, otherwise the POST with the payload
above. -/
def deduct_credits (key user_id : String) (amount : ℤ) (rt rid : String)
    (outcome : HttpOutcome) : Except CreditErr DebitPayload × List Ev :=
  if key = "" then (.error .keyMissing, [])
  else
    match outcome with
    | .netFail => (.error .netFail, [.ledgerPost])
    | .badStatus => (.error .badStatus, [.ledgerPost])
    | .notJson => (.error .notJson, [.ledgerPost])
    | .ok _ => (.ok (debit_payload user_id amount rt rid), [.ledgerPost])

/-- run.py line 109: `balance_resp.get("data", \x7b\x7d).get("balance", 0)` —
any missing key silently defaults to balance 0. -/
def extract_balance : LedgerJson → ℤ
  | .noData => 0
  | .dataNoBalance => 0
  | .dataBalance b => b

/-- Python `sep in s`, as structural recursion over the characters. -/
def contains_char (sep : Char) : List Char → Bool
  | [] => false
  | c :: cs => c = sep || contains_char sep cs

/-- Python `s.split(sep)` for a one-character separator: the result
always has at least one piece, and `"".split(sep)` is `[""]`. -/
def split_on_char (sep : Char) : List Char → List (List Char)
  | [] => [[]]
  | c :: cs =>
    let r := split_on_char sep cs
    if c = sep then [] :: r
    else
      match r with
      | [] => [[c]]
      | g :: gs => (c :: g) :: gs

/-- Python `s.lower()` (the extensions involved are ASCII). -/
def lower_str (s : String) : String := ⟨s.data.map Char.toLower⟩

/-- run.py lines 65-66: `filename.split('.')[-1] if '.' in filename else default`. -/
def ext_or_default (filename defaultExt : String) : String :=
  if contains_char '.' filename.data then
    String.mk ((split_on_char '.' filename.data).getLastD defaultExt.data)
  else defaultExt

/-- Extension chosen for the source upload (default "jpg"). -/
def source_ext (fn : String) : String := ext_or_default fn "jpg"

/-- Extension chosen for the target upload (default "mp4"). -/
def target_ext (fn : String) : String := ext_or_default fn "mp4"

/-- run.py line 70: the extensions classified as still images. -/
def image_exts : List String := ["png", "jpg", "jpeg", "bmp", "tiff"]

/-- run.py lines 69-74: the target is an image iff its (defaulted)
extension, lowercased, is in `image_exts`. -/
def is_image (targetFilename : String) : Bool :=
  lower_str (target_ext targetFilename) ∈ image_exts

/-- Written from the spec words of C10, independently of the code: the
lowercased extension of a filename, defined only when the filename has
one (contains a dot). -/
def spec_lower_ext (fn : String) : Option String :=
  if contains_char '.' fn.data then
    ((split_on_char '.' fn.data).getLast?).map (fun cs => lower_str (String.mk cs))
  else none

/-- run.py lines 69-74: output keeps the target extension for images and
is forced to "mp4" otherwise. -/
def output_ext (targetFilename : String) : String :=
  if is_image targetFilename then target_ext targetFilename else "mp4"

/-- run.py lines 96-99: a non-positive (or undeterminable, reported as
non-positive) video duration is replaced by 1 second. -/
def video_duration_used (d : ℚ) : ℚ :=
  if d ≤ 0 then 1 else d

/-- run.py lines 88-103: flat 300 credits for an image, and
`int(math.ceil(duration)) * 300` for a video, with the duration
fallback above. -/
def compute_cost (isImg : Bool) (d : ℚ) : ℤ :=
  if isImg then 300 else ⌈video_duration_used d⌉ * 300

/-- run.py lines 89-94: resource type label sent to the ledger. -/
def resource_type_of (isImg : Bool) : String :=
  if isImg then "image_generation" else "video_generation"

/-- Oracle for one `/swap` request: the multipart form fields, plus the
outcome of every external interaction the handler performs.  The engine
(`faceswapper_core.core.start()`) is opaque: whether the declared output
file exists after the call and whether the call raised are independent
observations. -/
structure World where
  source_filename : String
  target_filename : String
  user_id : String
  session_id : String
  face_enhancer : Bool
  keep_fps : Bool
  skip_audio : Bool
  many_faces : Bool
  save_source_ok : Bool
  save_target_ok : Bool
  duration : ℚ
  balance_outcome : HttpOutcome
  engine_raises : Bool
  engine_writes_output : Bool
  debit_outcome : HttpOutcome
  service_key : String
deriving DecidableEq, Repr

/-- State of one request: presence of the three job-scoped files
(`uploads/{id}_source.*`, `uploads/{id}_target.*`,
`outputs/output_{id}.*` — distinct paths by construction), whether each
upload file was ever created, how many times each upload file was
removed, and the ordered event trace. -/
structure S where
  src : Bool
  tgt : Bool
  outp : Bool
  srcCreated : Bool
  tgtCreated : Bool
  srcRm : Nat
  tgtRm : Nat
  evs : List Ev
deriving DecidableEq, Repr

/-- Initial state: the job-scoped paths are fresh (uuid-namespaced), so
none of the files exist. -/
def S0 : S :=
  { src := false, tgt := false, outp := false, srcCreated := false,
    tgtCreated := false, srcRm := 0, tgtRm := 0, evs := [] }

/-- Append one event to the trace. -/
def emit (e : Ev) (s : S) : S := { s with evs := s.evs ++ [e] }

/-- The `if os.path.exists(source_path): os.remove(source_path)` pattern
(run.py lines 188-189 and 199-200). -/
def rm_src (s : S) : S :=
  if s.src then { s with src := false, srcRm := s.srcRm + 1 } else s

/-- The `if os.path.exists(target_path): os.remove(target_path)` pattern
(run.py lines 190-191 and 201-202). -/
def rm_tgt (s : S) : S :=
  if s.tgt then { s with tgt := false, tgtRm := s.tgtRm + 1 } else s

/-- Exceptions as visible at the FastAPI boundary: an HTTPException with
its status and detail, or any other exception with its message. -/
inductive PyExc
  | http (status : Nat) (detail : String)
  | runtime (msg : String)
deriving DecidableEq, Repr

deriving instance DecidableEq for Except

/-- Python `str(e)`; for a Starlette HTTPException this includes the
status code and detail. Only its use as an opaque detail string matters. -/
def str_of_exc : PyExc → String
  | .http st d => toString st ++ ": " ++ d
  | .runtime m => m

/-- Message text of a credit-service exception. -/
def credit_err_msg : CreditErr → String
  | .keyMissing => "INTERNAL_SERVICE_KEY is not set in environment variables"
  | .netFail => "connection error"
  | .badStatus => "http status error"
  | .notJson => "invalid json"

/-- run.py lines 82-85: each upload is saved with `open(path, "wb")`
(which creates the file) followed by `shutil.copyfileobj` (which may
raise); the target is only opened after the source copy succeeded. -/
def save_files (w : World) (s : S) : Except PyExc Unit × S :=
  let s1 : S := { s with src := true, srcCreated := true }
  if w.save_source_ok then
    let s2 : S := { s1 with tgt := true, tgtCreated := true }
    if w.save_target_ok then (.ok (), s2)
    else (.error (.runtime "target write error"), s2)
  else (.error (.runtime "source write error"), s1)

/-- run.py lines 106-119: the inner try block.  `get_user_balance` may
raise (any such exception is converted to HTTPException 500
"Credit verification failed: ...").  On a returned body, the balance is
read with defaulting `.get` calls and compared to the cost; a shortfall
raises HTTPException 402, which the inner `except HTTPException: raise`
re-raises unchanged. -/
def credit_check (w : World) (cost : ℤ) (s : S) : Except PyExc Unit × S :=
  match get_user_balance w.service_key w.balance_outcome with
  | (.error e, evs) =>
      (.error (.http 500 ("Credit verification failed: " ++ credit_err_msg e)),
       { s with evs := s.evs ++ evs })
  | (.ok j, evs) =>
      let s1 : S := { s with evs := s.evs ++ evs }
      if extract_balance j < cost then
        (.error (.http 402 "Insufficient credits"), s1)
      else (.ok (), s1)

/-- run.py lines 124-163: `with process_lock:` — acquire, configure the
engine globals, call `faceswapper_core.core.start()` (which may leave
the output file on disk and may raise), `clean_temp`, and release; the
`with` statement releases the lock whether the body returns or raises. -/
def locked_section (w : World) (s : S) : Except PyExc Unit × S :=
  let s1 := emit .engine (emit .acquire s)
  let s2 : S := { s1 with outp := w.engine_writes_output }
  if w.engine_raises then (.error (.runtime "engine failure"), emit .release s2)
  else (.ok (), emit .release s2)

/-- Path returned on success (run.py lines 78 and 181). -/
def output_path (w : World) : String :=
  "outputs/output_" ++ w.session_id ++ "." ++ output_ext w.target_filename

/-- run.py lines 165-183: check the output file; if present, attempt the
debit (any exception is caught and logged, never re-raised) and return
the artifact; otherwise raise HTTPException 500. -/
def post_section (w : World) (cost : ℤ) (s : S) : Except PyExc String × S :=
  let s1 := emit .checkOut s
  if s1.outp then
    let s2 := emit .debit s1
    match deduct_credits w.service_key w.user_id cost
        (resource_type_of (is_image w.target_filename))
        ("swap_" ++ w.session_id) w.debit_outcome with
    | (.error _, evs) =>
        let s3 := emit .logDebitFail { s2 with evs := s2.evs ++ evs }
        (.ok (output_path w), emit .respond s3)
    | (.ok _, evs) =>
        let s3 : S := { s2 with evs := s2.evs ++ evs }
        (.ok (output_path w), emit .respond s3)
  else (.error (.http 500 "Processing failed, no output generated. Check server logs."), s1)

/-- Body of the outer `try` (run.py lines 80-183): save the uploads,
compute the cost, run the credit check, run the locked engine section,
then the post-processing section. -/
def try_body (w : World) (s : S) : Except PyExc String × S :=
  match save_files w s with
  | (.error e, s1) => (.error e, s1)
  | (.ok _, s1) =>
    let cost := compute_cost (is_image w.target_filename) w.duration
    match credit_check w cost s1 with
    | (.error e, s2) => (.error e, s2)
    | (.ok _, s2) =>
      match locked_section w s2 with
      | (.error e, s3) => (.error e, s3)
      | (.ok _, s3) => post_section w cost s3

/-- run.py lines 185-192: `except Exception as e:` — removes the upload
files that still exist and raises `HTTPException(500, str(e))`.  This
clause catches every exception of the try body, FastAPI HTTPExceptions
included (fastapi.HTTPException subclasses Exception), so the 402 raised
for insufficient credits is also re-wrapped here. -/
def except_handler (e : PyExc) (s : S) : Except PyExc String × S :=
  (.error (.http 500 (str_of_exc e)), rm_tgt (rm_src s))

/-- run.py lines 194-204: the `finally` block removes whichever upload
files still exist (removal failures are logged and swallowed; removal is
modelled as succeeding). -/
def finally_cleanup (s : S) : S := rm_tgt (rm_src s)

/-- The `/swap` handler (run.py lines 44-204): Python
`try/except/finally` semantics over `try_body`, `except_handler` and
`finally_cleanup`. -/
def swap_faces (w : World) : Except PyExc String × S :=
  match try_body w S0 with
  | (.ok a, s) => (.ok a, finally_cleanup s)
  | (.error e, s) =>
      let r := except_handler e s
      (r.1, finally_cleanup r.2)

/-- HTTP-level result of a request. -/
def run_result (w : World) : Except PyExc String := (swap_faces w).1

/-- Final state of a request. -/
def run_state (w : World) : S := (swap_faces w).2

/-- Event trace of a request. -/
def run_trace (w : World) : List Ev := (swap_faces w).2.evs

/-- Status code of an error result, if any. -/
def status_of : Except PyExc String → Option Nat
  | .error (.http st _) => some st
  | _ => none

/-- Predicate on an HTTP outcome: the round trip raised. -/
def http_failed : HttpOutcome → Bool
  | .ok _ => false
  | _ => true

/-! ### Concrete request worlds used in witnesses and counterexamples -/

/-- Image request by a user whose fetched balance (0) is below the cost
(300); everything else is healthy. -/
def w_broke : World :=
  { source_filename := "face.jpg", target_filename := "scene.png",
    user_id := "u1", session_id := "sid", face_enhancer := false,
    keep_fps := true, skip_audio := false, many_faces := false,
    save_source_ok := true, save_target_ok := true, duration := 0,
    balance_outcome := .ok (.dataBalance 0), engine_raises := false,
    engine_writes_output := true, debit_outcome := .ok .noData,
    service_key := "k" }

/-- Fully healthy image request: balance 1000, engine succeeds and
writes the output, debit succeeds. -/
def w_happy : World :=
  { w_broke with balance_outcome := .ok (.dataBalance 1000) }

/-- Healthy request whose ledger debit call fails with a network error
after the engine has succeeded. -/
def w_debit_down : World :=
  { w_happy with debit_outcome := .netFail }

/-- Request where the engine writes the output file and then raises. -/
def w_crash_after_write : World :=
  { w_happy with engine_raises := true }

/-! ### Characterization of `swap_faces`, one lemma per exit path -/

/-- A successful balance call implies a non-empty key, the `.ok` HTTP
outcome, and exactly one GET event. -/
lemma get_user_balance_ok (key : String) (bo : HttpOutcome) (j : LedgerJson)
    (gevs : List Ev) (hb : get_user_balance key bo = (.ok j, gevs)) :
    key ≠ "" ∧ bo = .ok j ∧ gevs = [.ledgerGet] := by
  by_cases hk : key = "" <;> cases bo <;> simp_all [get_user_balance]

/-- Exit path: saving the source upload fails. -/
lemma run_save_source_fail (w : World) (h : w.save_source_ok = false) :
    swap_faces w =
      (.error (.http 500 (str_of_exc (.runtime "source write error"))),
       { src := false, tgt := false, outp := false, srcCreated := true,
         tgtCreated := false, srcRm := 1, tgtRm := 0, evs := [] }) := by
  simp [swap_faces, try_body, save_files, h, except_handler, finally_cleanup,
    rm_src, rm_tgt, S0]

/-- Exit path: saving the target upload fails. -/
lemma run_save_target_fail (w : World) (hs : w.save_source_ok = true)
    (ht : w.save_target_ok = false) :
    swap_faces w =
      (.error (.http 500 (str_of_exc (.runtime "target write error"))),
       { src := false, tgt := false, outp := false, srcCreated := true,
         tgtCreated := true, srcRm := 1, tgtRm := 1, evs := [] }) := by
  simp [swap_faces, try_body, save_files, hs, ht, except_handler, finally_cleanup,
    rm_src, rm_tgt, S0]

/-- Exit path: the balance call raises (missing key, network error,
bad status, or non-JSON body). -/
lemma run_balance_err (w : World) (e : CreditErr) (gevs : List Ev)
    (hs : w.save_source_ok = true) (ht : w.save_target_ok = true)
    (hb : get_user_balance w.service_key w.balance_outcome = (.error e, gevs)) :
    swap_faces w =
      (.error (.http 500 (str_of_exc
          (.http 500 ("Credit verification failed: " ++ credit_err_msg e)))),
       { src := false, tgt := false, outp := false, srcCreated := true,
         tgtCreated := true, srcRm := 1, tgtRm := 1, evs := gevs }) := by
  simp [swap_faces, try_body, save_files, hs, ht, credit_check, hb,
    except_handler, finally_cleanup, rm_src, rm_tgt, S0]

/-- Exit path: the fetched balance is below the computed cost.  The 402
HTTPException raised at run.py line 113 is caught by the outer
`except Exception` and surfaced as a 500. -/
lemma run_insufficient (w : World) (j : LedgerJson) (gevs : List Ev)
    (hs : w.save_source_ok = true) (ht : w.save_target_ok = true)
    (hb : get_user_balance w.service_key w.balance_outcome = (.ok j, gevs))
    (hlt : extract_balance j < compute_cost (is_image w.target_filename) w.duration) :
    swap_faces w =
      (.error (.http 500 (str_of_exc (.http 402 "Insufficient credits"))),
       { src := false, tgt := false, outp := false, srcCreated := true,
         tgtCreated := true, srcRm := 1, tgtRm := 1, evs := gevs }) := by
  simp [swap_faces, try_body, save_files, hs, ht, credit_check, hb, hlt,
    except_handler, finally_cleanup, rm_src, rm_tgt, S0]

/-- Exit path: the engine call raises; the lock is still released and
whatever the engine left at the output path stays on disk. -/
lemma run_engine_raises (w : World) (j : LedgerJson) (gevs : List Ev)
    (hs : w.save_source_ok = true) (ht : w.save_target_ok = true)
    (hb : get_user_balance w.service_key w.balance_outcome = (.ok j, gevs))
    (hge : ¬ extract_balance j < compute_cost (is_image w.target_filename) w.duration)
    (her : w.engine_raises = true) :
    swap_faces w =
      (.error (.http 500 (str_of_exc (.runtime "engine failure"))),
       { src := false, tgt := false, outp := w.engine_writes_output,
         srcCreated := true, tgtCreated := true, srcRm := 1, tgtRm := 1,
         evs := gevs ++ [.acquire, .engine, .release] }) := by
  simp [swap_faces, try_body, save_files, hs, ht, credit_check, hb, hge,
    locked_section, her, emit, except_handler, finally_cleanup, rm_src, rm_tgt, S0]

/-- Exit path: the engine call returns but the declared output file does
not exist. -/
lemma run_no_output (w : World) (j : LedgerJson) (gevs : List Ev)
    (hs : w.save_source_ok = true) (ht : w.save_target_ok = true)
    (hb : get_user_balance w.service_key w.balance_outcome = (.ok j, gevs))
    (hge : ¬ extract_balance j < compute_cost (is_image w.target_filename) w.duration)
    (her : w.engine_raises = false) (hew : w.engine_writes_output = false) :
    swap_faces w =
      (.error (.http 500 (str_of_exc
          (.http 500 "Processing failed, no output generated. Check server logs."))),
       { src := false, tgt := false, outp := false, srcCreated := true,
         tgtCreated := true, srcRm := 1, tgtRm := 1,
         evs := gevs ++ [.acquire, .engine, .release, .checkOut] }) := by
  simp [swap_faces, try_body, save_files, hs, ht, credit_check, hb, hge,
    locked_section, her, hew, post_section, emit, except_handler,
    finally_cleanup, rm_src, rm_tgt, S0]

/-- Exit path: engine success and the debit call succeeds. -/
lemma run_success_debit_ok (w : World) (j : LedgerJson) (gevs devs : List Ev)
    (p : DebitPayload)
    (hs : w.save_source_ok = true) (ht : w.save_target_ok = true)
    (hb : get_user_balance w.service_key w.balance_outcome = (.ok j, gevs))
    (hge : ¬ extract_balance j < compute_cost (is_image w.target_filename) w.duration)
    (her : w.engine_raises = false) (hew : w.engine_writes_output = true)
    (hd : deduct_credits w.service_key w.user_id
        (compute_cost (is_image w.target_filename) w.duration)
        (resource_type_of (is_image w.target_filename))
        ("swap_" ++ w.session_id) w.debit_outcome = (.ok p, devs)) :
    swap_faces w =
      (.ok (output_path w),
       { src := false, tgt := false, outp := true, srcCreated := true,
         tgtCreated := true, srcRm := 1, tgtRm := 1,
         evs := gevs ++ [.acquire, .engine, .release, .checkOut, .debit]
                  ++ devs ++ [.respond] }) := by
  simp [swap_faces, try_body, save_files, hs, ht, credit_check, hb, hge,
    locked_section, her, hew, post_section, hd, emit, finally_cleanup,
    rm_src, rm_tgt, S0]

/-- Exit path: engine success but the debit call raises; the failure is
logged and the artifact is still returned. -/
lemma run_success_debit_err (w : World) (j : LedgerJson) (gevs devs : List Ev)
    (de : CreditErr)
    (hs : w.save_source_ok = true) (ht : w.save_target_ok = true)
    (hb : get_user_balance w.service_key w.balance_outcome = (.ok j, gevs))
    (hge : ¬ extract_balance j < compute_cost (is_image w.target_filename) w.duration)
    (her : w.engine_raises = false) (hew : w.engine_writes_output = true)
    (hd : deduct_credits w.service_key w.user_id
        (compute_cost (is_image w.target_filename) w.duration)
        (resource_type_of (is_image w.target_filename))
        ("swap_" ++ w.session_id) w.debit_outcome = (.error de, devs)) :
    swap_faces w =
      (.ok (output_path w),
       { src := false, tgt := false, outp := true, srcCreated := true,
         tgtCreated := true, srcRm := 1, tgtRm := 1,
         evs := gevs ++ [.acquire, .engine, .release, .checkOut, .debit]
                  ++ devs ++ [.logDebitFail, .respond] }) := by
  simp [swap_faces, try_body, save_files, hs, ht, credit_check, hb, hge,
    locked_section, her, hew, post_section, hd, emit, finally_cleanup,
    rm_src, rm_tgt, S0]

/-- The event list of a balance call is empty (missing key) or a single
GET. -/
lemma get_user_balance_evs (key : String) (bo : HttpOutcome) :
    (get_user_balance key bo).2 = [] ∨ (get_user_balance key bo).2 = [Ev.ledgerGet] := by
  by_cases hk : key = "" <;> cases bo <;> simp [get_user_balance, hk]

/-- Every request falls into one of eight exit classes; each class fixes
the full result, final state and event trace of `swap_faces`. -/
lemma run_cases (w : World) :
    (w.save_source_ok = false ∧ swap_faces w =
      (.error (.http 500 (str_of_exc (.runtime "source write error"))),
       ⟨false, false, false, true, false, 1, 0, []⟩)) ∨
    (w.save_source_ok = true ∧ w.save_target_ok = false ∧ swap_faces w =
      (.error (.http 500 (str_of_exc (.runtime "target write error"))),
       ⟨false, false, false, true, true, 1, 1, []⟩)) ∨
    (∃ e gevs, (gevs = [] ∨ gevs = [Ev.ledgerGet]) ∧ swap_faces w =
      (.error (.http 500 (str_of_exc
          (.http 500 ("Credit verification failed: " ++ credit_err_msg e)))),
       ⟨false, false, false, true, true, 1, 1, gevs⟩)) ∨
    (∃ j, get_user_balance w.service_key w.balance_outcome = (.ok j, [Ev.ledgerGet]) ∧
      extract_balance j < compute_cost (is_image w.target_filename) w.duration ∧
      swap_faces w =
      (.error (.http 500 (str_of_exc (.http 402 "Insufficient credits"))),
       ⟨false, false, false, true, true, 1, 1, [Ev.ledgerGet]⟩)) ∨
    (w.engine_raises = true ∧ swap_faces w =
      (.error (.http 500 (str_of_exc (.runtime "engine failure"))),
       ⟨false, false, w.engine_writes_output, true, true, 1, 1,
        [Ev.ledgerGet, Ev.acquire, Ev.engine, Ev.release]⟩)) ∨
    (w.engine_raises = false ∧ w.engine_writes_output = false ∧ swap_faces w =
      (.error (.http 500 (str_of_exc
          (.http 500 "Processing failed, no output generated. Check server logs."))),
       ⟨false, false, false, true, true, 1, 1,
        [Ev.ledgerGet, Ev.acquire, Ev.engine, Ev.release, Ev.checkOut]⟩)) ∨
    (w.engine_raises = false ∧ w.engine_writes_output = true ∧
      http_failed w.debit_outcome = false ∧ swap_faces w =
      (.ok (output_path w),
       ⟨false, false, true, true, true, 1, 1,
        [Ev.ledgerGet, Ev.acquire, Ev.engine, Ev.release, Ev.checkOut,
         Ev.debit, Ev.ledgerPost, Ev.respond]⟩)) ∨
    (w.engine_raises = false ∧ w.engine_writes_output = true ∧
      http_failed w.debit_outcome = true ∧ swap_faces w =
      (.ok (output_path w),
       ⟨false, false, true, true, true, 1, 1,
        [Ev.ledgerGet, Ev.acquire, Ev.engine, Ev.release, Ev.checkOut,
         Ev.debit, Ev.ledgerPost, Ev.logDebitFail, Ev.respond]⟩)) := by
  by_cases hs : w.save_source_ok = true
  case neg =>
    have hs' : w.save_source_ok = false := by simpa using hs
    exact Or.inl ⟨hs', run_save_source_fail w hs'⟩
  by_cases ht : w.save_target_ok = true
  case neg =>
    have ht' : w.save_target_ok = false := by simpa using ht
    exact Or.inr (Or.inl ⟨hs, ht', run_save_target_fail w hs ht'⟩)
  rcases hg : get_user_balance w.service_key w.balance_outcome with ⟨r, gevs⟩
  cases r with
  | error e =>
      have hev := get_user_balance_evs w.service_key w.balance_outcome
      rw [hg] at hev
      exact Or.inr (Or.inr (Or.inl ⟨e, gevs, hev, run_balance_err w e gevs hs ht hg⟩))
  | ok j =>
      obtain ⟨hk, -, hgevs⟩ := get_user_balance_ok _ _ _ _ hg
      subst hgevs
      by_cases hlt : extract_balance j < compute_cost (is_image w.target_filename) w.duration
      case pos =>
        exact Or.inr (Or.inr (Or.inr (Or.inl
          ⟨j, rfl, hlt, run_insufficient w j _ hs ht hg hlt⟩)))
      by_cases her : w.engine_raises = true
      case pos =>
        exact Or.inr (Or.inr (Or.inr (Or.inr (Or.inl
          ⟨her, run_engine_raises w j _ hs ht hg hlt her⟩))))
      have her' : w.engine_raises = false := by simpa using her
      by_cases hew : w.engine_writes_output = true
      case neg =>
        have hew' : w.engine_writes_output = false := by simpa using hew
        exact Or.inr (Or.inr (Or.inr (Or.inr (Or.inr (Or.inl
          ⟨her', hew', run_no_output w j _ hs ht hg hlt her' hew'⟩)))))
      cases hdbo : w.debit_outcome with
      | ok j2 =>
          have hd : deduct_credits w.service_key w.user_id
              (compute_cost (is_image w.target_filename) w.duration)
              (resource_type_of (is_image w.target_filename))
              ("swap_" ++ w.session_id) w.debit_outcome =
              (.ok (debit_payload w.user_id
                (compute_cost (is_image w.target_filename) w.duration)
                (resource_type_of (is_image w.target_filename))
                ("swap_" ++ w.session_id)), [Ev.ledgerPost]) := by
            simp [deduct_credits, hk, hdbo]
          refine Or.inr (Or.inr (Or.inr (Or.inr (Or.inr (Or.inr (Or.inl
            ⟨her', hew, by simp [http_failed, hdbo], ?_⟩))))))
          exact run_success_debit_ok w j _ _ _ hs ht hg hlt her' hew hd
      | netFail =>
          have hd : deduct_credits w.service_key w.user_id
              (compute_cost (is_image w.target_filename) w.duration)
              (resource_type_of (is_image w.target_filename))
              ("swap_" ++ w.session_id) w.debit_outcome =
              (.error .netFail, [Ev.ledgerPost]) := by
            simp [deduct_credits, hk, hdbo]
          refine Or.inr (Or.inr (Or.inr (Or.inr (Or.inr (Or.inr (Or.inr
            ⟨her', hew, by simp [http_failed, hdbo], ?_⟩))))))
          exact run_success_debit_err w j _ _ _ hs ht hg hlt her' hew hd
      | badStatus =>
          have hd : deduct_credits w.service_key w.user_id
              (compute_cost (is_image w.target_filename) w.duration)
              (resource_type_of (is_image w.target_filename))
              ("swap_" ++ w.session_id) w.debit_outcome =
              (.error .badStatus, [Ev.ledgerPost]) := by
            simp [deduct_credits, hk, hdbo]
          refine Or.inr (Or.inr (Or.inr (Or.inr (Or.inr (Or.inr (Or.inr
            ⟨her', hew, by simp [http_failed, hdbo], ?_⟩))))))
          exact run_success_debit_err w j _ _ _ hs ht hg hlt her' hew hd
      | notJson =>
          have hd : deduct_credits w.service_key w.user_id
              (compute_cost (is_image w.target_filename) w.duration)
              (resource_type_of (is_image w.target_filename))
              ("swap_" ++ w.session_id) w.debit_outcome =
              (.error .notJson, [Ev.ledgerPost]) := by
            simp [deduct_credits, hk, hdbo]
          refine Or.inr (Or.inr (Or.inr (Or.inr (Or.inr (Or.inr (Or.inr
            ⟨her', hew, by simp [http_failed, hdbo], ?_⟩))))))
          exact run_success_debit_err w j _ _ _ hs ht hg hlt her' hew hd

/-! ### Claims -/

/-- C1 (code bug, evaluated at the failing input): for the image request
`w_broke` with fetched balance 0 < cost 300, the engine is indeed never
invoked (the ProcessingSlot is never acquired), but the HTTP response
status is 500, not the claimed 402: the HTTPException(402) raised at
run.py line 113 is caught by the blanket `except Exception` at line 185
— fastapi.HTTPException subclasses Exception — and re-raised as a 500. -/
theorem C1_insufficient_credits_responds_500 :
    extract_balance (.dataBalance 0) <
      compute_cost (is_image w_broke.target_filename) w_broke.duration ∧
    (run_trace w_broke).contains Ev.acquire = false ∧
    status_of (run_result w_broke) = some 500 := by decide

/-- C4: the cost is a non-negative integer, deterministic in the media
kind and duration: exactly 300 for an image; for a video,
`ceil(duration) * 300`, with a non-positive (= undeterminable) duration
replaced by 1 rather than failing the job. -/
theorem C4_cost_function (isImg : Bool) (d : ℚ) :
    0 ≤ compute_cost isImg d ∧
    (isImg = true → compute_cost isImg d = 300) ∧
    (isImg = false → d ≤ 0 → compute_cost isImg d = ⌈(1 : ℚ)⌉ * 300) ∧
    (isImg = false → 0 < d → compute_cost isImg d = ⌈d⌉ * 300) := by
  refine ⟨?_, ?_, ?_, ?_⟩
  · cases isImg
    · have h1 : 0 < ⌈video_duration_used d⌉ := by
        unfold video_duration_used
        split
        · norm_num
        · exact Int.ceil_pos.mpr (by linarith [not_le.mp (by assumption)])
      have : (0 : ℤ) ≤ ⌈video_duration_used d⌉ * 300 := by positivity
      simpa [compute_cost] using this
    · simp [compute_cost]
  · intro h; subst h; simp [compute_cost]
  · intro h hd; subst h; simp [compute_cost, video_duration_used, hd]
  · intro h hd; subst h
    simp [compute_cost, video_duration_used, not_le.mpr hd]

/-- C4 witness: concrete evaluations through the theorem: image cost
300; video of undeterminable duration costs 300; a 2.5-second video
costs `ceil(2.5) * 300 = 900`. -/
theorem C4_cost_function_witness :
    compute_cost true 0 = 300 ∧
    compute_cost false 0 = ⌈(1 : ℚ)⌉ * 300 ∧
    compute_cost false (5 / 2) = ⌈(5 / 2 : ℚ)⌉ * 300 :=
  ⟨(C4_cost_function true 0).2.1 rfl,
   (C4_cost_function false 0).2.2.1 rfl (by norm_num),
   (C4_cost_function false (5 / 2)).2.2.2 rfl (by norm_num)⟩

/-- C7 (counterexample): a malformed-but-JSON balance response — here a
body whose "data" object lacks the "balance" key — does NOT make the
balance query fail with a protocol error: `get_user_balance` returns it
as a normal result, and run.py line 109 interprets it as balance 0. -/
theorem C7_malformed_response_counterexample :
    get_user_balance "k" (.ok .dataNoBalance) = (.ok .dataNoBalance, [Ev.ledgerGet]) ∧
    extract_balance .dataNoBalance = 0 := by decide

/-- C7 (amended): with the key configured, the balance query raises
exactly when the HTTP round trip itself fails (network error, error
status, or a body that is not JSON); a well-formed JSON body — even one
missing the expected data.balance structure — is returned as is, and
the missing-structure cases are read as balance 0 by the handler. -/
theorem C7_amended_malformed_read_as_zero (key : String) (o : HttpOutcome)
    (hk : key ≠ "") :
    ((∃ e, (get_user_balance key o).1 = .error e) ↔ http_failed o = true) ∧
    (∀ j, o = .ok j → (get_user_balance key o).1 = .ok j) ∧
    extract_balance .noData = 0 ∧ extract_balance .dataNoBalance = 0 := by
  cases o <;> simp [get_user_balance, hk, http_failed, extract_balance]

/-- C7 amended witness: at key "k" and a network failure, the query
errors; the defaulting reads are 0. -/
theorem C7_amended_witness :
    ((∃ e, (get_user_balance "k" .netFail).1 = .error e) ↔
      http_failed .netFail = true) ∧
    (∀ j, HttpOutcome.netFail = HttpOutcome.ok j →
      (get_user_balance "k" .netFail).1 = .ok j) ∧
    extract_balance .noData = 0 ∧ extract_balance .dataNoBalance = 0 :=
  C7_amended_malformed_read_as_zero "k" .netFail (by decide)

/-- C9: with an absent or empty INTERNAL_SERVICE_KEY (os.getenv defaults
an absent variable to ""), both credit-service operations raise the
configuration RuntimeError and make no network call at all (empty event
list). -/
theorem C9_missing_key_no_network (o : HttpOutcome) (uid : String) (amt : ℤ)
    (rt rid : String) :
    get_user_balance "" o = (.error .keyMissing, []) ∧
    deduct_credits "" uid amt rt rid o = (.error .keyMissing, []) := by
  constructor <;> simp [get_user_balance, deduct_credits]

/-- C10: the target is classified as a still image iff its lowercased
extension (text after the last dot, per the spec-side reading
`spec_lower_ext`) is png/jpg/jpeg/bmp/tiff; every non-image target gets
output extension mp4; a dotless filename defaults to extension mp4 and
is therefore treated as video. -/
theorem C10_image_classification (fn : String) :
    (is_image fn = true ↔ ∃ e, spec_lower_ext fn = some e ∧ e ∈ image_exts) ∧
    (is_image fn = false → output_ext fn = "mp4") ∧
    (contains_char '.' fn.data = false →
      is_image fn = false ∧ target_ext fn = "mp4" ∧ output_ext fn = "mp4") := by
  refine ⟨?_, ?_, ?_⟩
  · by_cases hc : contains_char '.' fn.data = true
    · cases hl : (split_on_char '.' fn.data).getLast? with
      | none =>
          have hd : (split_on_char '.' fn.data).getLastD "mp4".data = "mp4".data := by
            rw [List.getLastD_eq_getLast? "mp4".data, hl]
            rfl
          simp [is_image, target_ext, ext_or_default, spec_lower_ext, hc, hl, hd]
          decide
      | some x =>
          have hd : (split_on_char '.' fn.data).getLastD "mp4".data = x := by
            rw [List.getLastD_eq_getLast? "mp4".data, hl]
            rfl
          simp [is_image, target_ext, ext_or_default, spec_lower_ext, hc, hl, hd]
    · have hc' : contains_char '.' fn.data = false := by simpa using hc
      simp [is_image, target_ext, ext_or_default, spec_lower_ext, hc']
      decide
  · intro h
    simp [output_ext, h]
  · intro h
    have h1 : is_image fn = false := by
      simp [is_image, target_ext, ext_or_default, h]
      decide
    exact ⟨h1, by simp [target_ext, ext_or_default, h], by simp [output_ext, h1]⟩

/-- C10 witness: a png target is classified as an image; a dotless
target filename is treated as video with output extension mp4. -/
theorem C10_image_classification_witness :
    is_image "scene.png" = true ∧ output_ext "clip" = "mp4" :=
  ⟨(C10_image_classification "scene.png").1.mpr ⟨"png", by decide, by decide⟩,
   ((C10_image_classification "clip").2.2 (by decide)).2.2⟩

/-- C2: the debit is attempted exactly once if and only if the engine
was invoked, returned without raising, and the declared output file
exists afterwards — exactly the success-response case; on every failure
path no debit call is made. -/
theorem C2_debit_iff_engine_success (w : World) :
    ((run_trace w).count Ev.debit = 1 ∧
      (run_trace w).contains Ev.engine = true ∧
      w.engine_raises = false ∧ w.engine_writes_output = true ∧
      ∃ p, run_result w = Except.ok p) ∨
    ((run_trace w).count Ev.debit = 0 ∧
      ((run_trace w).contains Ev.engine = false ∨ w.engine_raises = true ∨
        w.engine_writes_output = false) ∧
      ∃ e, run_result w = Except.error e) := by
  rcases run_cases w with ⟨h1, heq⟩ | ⟨h1, h2, heq⟩ | ⟨e, gevs, hg, heq⟩ |
    ⟨j, hb, hlt, heq⟩ | ⟨h1, heq⟩ | ⟨h1, h2, heq⟩ | ⟨h1, h2, h3, heq⟩ | ⟨h1, h2, h3, heq⟩
  · have htr : run_trace w = [] := by simp [run_trace, heq]
    exact Or.inr ⟨by rw [htr]; decide, Or.inl (by rw [htr]; decide),
      ⟨_, congrArg Prod.fst heq⟩⟩
  · have htr : run_trace w = [] := by simp [run_trace, heq]
    exact Or.inr ⟨by rw [htr]; decide, Or.inl (by rw [htr]; decide),
      ⟨_, congrArg Prod.fst heq⟩⟩
  · rcases hg with hg | hg <;> subst hg
    · have htr : run_trace w = [] := by simp [run_trace, heq]
      exact Or.inr ⟨by rw [htr]; decide, Or.inl (by rw [htr]; decide),
        ⟨_, congrArg Prod.fst heq⟩⟩
    · have htr : run_trace w = [Ev.ledgerGet] := by simp [run_trace, heq]
      exact Or.inr ⟨by rw [htr]; decide, Or.inl (by rw [htr]; decide),
        ⟨_, congrArg Prod.fst heq⟩⟩
  · have htr : run_trace w = [Ev.ledgerGet] := by simp [run_trace, heq]
    exact Or.inr ⟨by rw [htr]; decide, Or.inl (by rw [htr]; decide),
      ⟨_, congrArg Prod.fst heq⟩⟩
  · have htr : run_trace w = [Ev.ledgerGet, Ev.acquire, Ev.engine, Ev.release] := by
      simp [run_trace, heq]
    exact Or.inr ⟨by rw [htr]; decide, Or.inr (Or.inl h1),
      ⟨_, congrArg Prod.fst heq⟩⟩
  · have htr : run_trace w =
        [Ev.ledgerGet, Ev.acquire, Ev.engine, Ev.release, Ev.checkOut] := by
      simp [run_trace, heq]
    exact Or.inr ⟨by rw [htr]; decide, Or.inr (Or.inr h2),
      ⟨_, congrArg Prod.fst heq⟩⟩
  · have htr : run_trace w =
        [Ev.ledgerGet, Ev.acquire, Ev.engine, Ev.release, Ev.checkOut,
         Ev.debit, Ev.ledgerPost, Ev.respond] := by
      simp [run_trace, heq]
    exact Or.inl ⟨by rw [htr]; decide, by rw [htr]; decide, h1, h2,
      ⟨_, congrArg Prod.fst heq⟩⟩
  · have htr : run_trace w =
        [Ev.ledgerGet, Ev.acquire, Ev.engine, Ev.release, Ev.checkOut,
         Ev.debit, Ev.ledgerPost, Ev.logDebitFail, Ev.respond] := by
      simp [run_trace, heq]
    exact Or.inl ⟨by rw [htr]; decide, by rw [htr]; decide, h1, h2,
      ⟨_, congrArg Prod.fst heq⟩⟩

/-- C3: whenever the engine succeeded (a debit was attempted) and the
debit round trip fails, the artifact is still returned with a success
response and the failure is logged (the CRITICAL log line), never
surfaced as an error response. -/
theorem C3_debit_failure_not_surfaced (w : World)
    (h1 : Ev.debit ∈ run_trace w) (h2 : http_failed w.debit_outcome = true) :
    run_result w = Except.ok (output_path w) ∧
    Ev.logDebitFail ∈ run_trace w := by
  rcases run_cases w with ⟨g1, heq⟩ | ⟨g1, g2, heq⟩ | ⟨e, gevs, hg, heq⟩ |
    ⟨j, hb, hlt, heq⟩ | ⟨g1, heq⟩ | ⟨g1, g2, heq⟩ | ⟨g1, g2, g3, heq⟩ | ⟨g1, g2, g3, heq⟩
  · have htr : run_trace w = [] := by simp [run_trace, heq]
    rw [htr] at h1; exact absurd h1 (by decide)
  · have htr : run_trace w = [] := by simp [run_trace, heq]
    rw [htr] at h1; exact absurd h1 (by decide)
  · rcases hg with hg | hg <;> subst hg
    · have htr : run_trace w = [] := by simp [run_trace, heq]
      rw [htr] at h1; exact absurd h1 (by decide)
    · have htr : run_trace w = [Ev.ledgerGet] := by simp [run_trace, heq]
      rw [htr] at h1; exact absurd h1 (by decide)
  · have htr : run_trace w = [Ev.ledgerGet] := by simp [run_trace, heq]
    rw [htr] at h1; exact absurd h1 (by decide)
  · have htr : run_trace w = [Ev.ledgerGet, Ev.acquire, Ev.engine, Ev.release] := by
      simp [run_trace, heq]
    rw [htr] at h1; exact absurd h1 (by decide)
  · have htr : run_trace w =
        [Ev.ledgerGet, Ev.acquire, Ev.engine, Ev.release, Ev.checkOut] := by
      simp [run_trace, heq]
    rw [htr] at h1; exact absurd h1 (by decide)
  · rw [g3] at h2; exact absurd h2 (by decide)
  · have htr : run_trace w =
        [Ev.ledgerGet, Ev.acquire, Ev.engine, Ev.release, Ev.checkOut,
         Ev.debit, Ev.ledgerPost, Ev.logDebitFail, Ev.respond] := by
      simp [run_trace, heq]
    exact ⟨congrArg Prod.fst heq, by rw [htr]; decide⟩

/-- C3 witness: engine succeeds, debit fails with a network error; the
artifact is still returned and the failure is logged. -/
theorem C3_debit_failure_not_surfaced_witness :
    run_result w_debit_down = Except.ok (output_path w_debit_down) ∧
    Ev.logDebitFail ∈ run_trace w_debit_down :=
  C3_debit_failure_not_surfaced w_debit_down (by decide) (by decide)

/-- C5 (counterexample): in a run where the engine writes the output
and then raises, the job fails (HTTP 500) yet the output artifact is
still on disk after cleanup — the code never removes the output path on
any exit, so cleanup does NOT remove the output artifact of a job that
did not reach success. -/
theorem C5_output_kept_on_failure_counterexample :
    status_of (run_result w_crash_after_write) = some 500 ∧
    (run_state w_crash_after_write).outp = true := by decide

/-- C5 (amended): cleanup never touches the output artifact on any exit
path: after the request, the output file exists iff the engine was
invoked and wrote it — in particular it is retained on every success
response (and also retained, i.e. leaked, when the job failed after the
engine wrote it). -/
theorem C5_amended_output_never_deleted (w : World) :
    (run_state w).outp = ((run_trace w).contains Ev.engine &&
      w.engine_writes_output) ∧
    ((∃ p, run_result w = Except.ok p) → (run_state w).outp = true) := by
  rcases run_cases w with ⟨g1, heq⟩ | ⟨g1, g2, heq⟩ | ⟨e, gevs, hg, heq⟩ |
    ⟨j, hb, hlt, heq⟩ | ⟨g1, heq⟩ | ⟨g1, g2, heq⟩ | ⟨g1, g2, g3, heq⟩ | ⟨g1, g2, g3, heq⟩
  · have hst : (run_state w).outp = false := by simp [run_state, heq]
    have htr : run_trace w = [] := by simp [run_trace, heq]
    refine ⟨by rw [hst, htr]; simp, fun ⟨p, hp⟩ => ?_⟩
    rw [run_result, heq] at hp; simp at hp
  · have hst : (run_state w).outp = false := by simp [run_state, heq]
    have htr : run_trace w = [] := by simp [run_trace, heq]
    refine ⟨by rw [hst, htr]; simp, fun ⟨p, hp⟩ => ?_⟩
    rw [run_result, heq] at hp; simp at hp
  · have hst : (run_state w).outp = false := by simp [run_state, heq]
    have htr : (run_trace w).contains Ev.engine = false := by
      rcases hg with hg | hg <;> subst hg <;> simp [run_trace, heq]
    refine ⟨by rw [hst, htr]; simp, fun ⟨p, hp⟩ => ?_⟩
    rw [run_result, heq] at hp; simp at hp
  · have hst : (run_state w).outp = false := by simp [run_state, heq]
    have htr : run_trace w = [Ev.ledgerGet] := by simp [run_trace, heq]
    refine ⟨by rw [hst, htr]; simp, fun ⟨p, hp⟩ => ?_⟩
    rw [run_result, heq] at hp; simp at hp
  · have hst : (run_state w).outp = w.engine_writes_output := by
      simp [run_state, heq]
    have htr : (run_trace w).contains Ev.engine = true := by
      simp [run_trace, heq]
    refine ⟨by rw [hst, htr]; simp, fun ⟨p, hp⟩ => ?_⟩
    rw [run_result, heq] at hp; simp at hp
  · have hst : (run_state w).outp = false := by simp [run_state, heq]
    have htr : (run_trace w).contains Ev.engine = true := by
      simp [run_trace, heq]
    refine ⟨by rw [hst, htr, g2]; decide, fun ⟨p, hp⟩ => ?_⟩
    rw [run_result, heq] at hp; simp at hp
  · have hst : (run_state w).outp = true := by simp [run_state, heq]
    have htr : (run_trace w).contains Ev.engine = true := by
      simp [run_trace, heq]
    exact ⟨by rw [hst, htr, g2]; decide, fun _ => hst⟩
  · have hst : (run_state w).outp = true := by simp [run_state, heq]
    have htr : (run_trace w).contains Ev.engine = true := by
      simp [run_trace, heq]
    exact ⟨by rw [hst, htr, g2]; decide, fun _ => hst⟩

/-- C5 amended witness: on the fully healthy request the output is
present after the run. -/
theorem C5_amended_output_never_deleted_witness :
    (run_state w_happy).outp = true :=
  (C5_amended_output_never_deleted w_happy).2 ⟨output_path w_happy, by decide⟩

/-- C6: on every exit path both upload files are absent afterwards; the
source is removed exactly once, and the target is removed exactly once
whenever it was created (it is never created when saving the source
upload already failed) and never more than once. -/
theorem C6_upload_cleanup (w : World) :
    (run_state w).src = false ∧ (run_state w).tgt = false ∧
    (run_state w).srcRm = 1 ∧ (run_state w).tgtRm ≤ 1 ∧
    ((run_state w).tgtCreated = true → (run_state w).tgtRm = 1) := by
  rcases run_cases w with ⟨g1, heq⟩ | ⟨g1, g2, heq⟩ | ⟨e, gevs, hg, heq⟩ |
    ⟨j, hb, hlt, heq⟩ | ⟨g1, heq⟩ | ⟨g1, g2, heq⟩ | ⟨g1, g2, g3, heq⟩ | ⟨g1, g2, g3, heq⟩ <;>
    exact ⟨by simp [run_state, heq], by simp [run_state, heq],
      by simp [run_state, heq], by simp [run_state, heq],
      fun h => by simp [run_state, heq] at h ⊢⟩

/-- C6 witness: on the fully healthy request, both uploads are gone and
each was removed exactly once. -/
theorem C6_upload_cleanup_witness :
    (run_state w_happy).src = false ∧ (run_state w_happy).tgt = false ∧
    (run_state w_happy).srcRm = 1 ∧ (run_state w_happy).tgtRm = 1 :=
  ⟨(C6_upload_cleanup w_happy).1, (C6_upload_cleanup w_happy).2.1,
   (C6_upload_cleanup w_happy).2.2.1,
   (C6_upload_cleanup w_happy).2.2.2.2 (by decide)⟩

/-- C8: whenever the ProcessingSlot is acquired, the trace is the
pre-lock balance call, then acquire, the engine call, and the release
immediately after it — before the output-existence check, the debit and
the response, which can only occur later — and the slot is never
touched again. -/
theorem C8_slot_released_before_next_step (w : World)
    (h : Ev.acquire ∈ run_trace w) :
    ∃ post, run_trace w =
        [Ev.ledgerGet, Ev.acquire, Ev.engine, Ev.release] ++ post ∧
      Ev.acquire ∉ post ∧ Ev.engine ∉ post ∧ Ev.release ∉ post := by
  rcases run_cases w with ⟨g1, heq⟩ | ⟨g1, g2, heq⟩ | ⟨e, gevs, hg, heq⟩ |
    ⟨j, hb, hlt, heq⟩ | ⟨g1, heq⟩ | ⟨g1, g2, heq⟩ | ⟨g1, g2, g3, heq⟩ | ⟨g1, g2, g3, heq⟩
  · have htr : run_trace w = [] := by simp [run_trace, heq]
    rw [htr] at h; exact absurd h (by decide)
  · have htr : run_trace w = [] := by simp [run_trace, heq]
    rw [htr] at h; exact absurd h (by decide)
  · rcases hg with hg | hg <;> subst hg
    · have htr : run_trace w = [] := by simp [run_trace, heq]
      rw [htr] at h; exact absurd h (by decide)
    · have htr : run_trace w = [Ev.ledgerGet] := by simp [run_trace, heq]
      rw [htr] at h; exact absurd h (by decide)
  · have htr : run_trace w = [Ev.ledgerGet] := by simp [run_trace, heq]
    rw [htr] at h; exact absurd h (by decide)
  · exact ⟨[], by simp [run_trace, heq], by decide, by decide, by decide⟩
  · exact ⟨[Ev.checkOut], by simp [run_trace, heq], by decide, by decide, by decide⟩
  · exact ⟨[Ev.checkOut, Ev.debit, Ev.ledgerPost, Ev.respond],
      by simp [run_trace, heq], by decide, by decide, by decide⟩
  · exact ⟨[Ev.checkOut, Ev.debit, Ev.ledgerPost, Ev.logDebitFail, Ev.respond],
      by simp [run_trace, heq], by decide, by decide, by decide⟩

/-- C8 witness: the healthy request acquires the slot, and its trace has
the required shape. -/
theorem C8_slot_released_before_next_step_witness :
    ∃ post, run_trace w_happy =
        [Ev.ledgerGet, Ev.acquire, Ev.engine, Ev.release] ++ post ∧
      Ev.acquire ∉ post ∧ Ev.engine ∉ post ∧ Ev.release ∉ post :=
  C8_slot_released_before_next_step w_happy (by decide)

end FaceSwapper
